import Mathlib

/-!
Verification development for the roleforge-api authentication core.

The definitions below are shallow embeddings of the Python source:
- `src/app/core/security.py`: password-hash wrappers, JWT creation and
  verification (`create_access_token`, `create_refresh_token`,
  `verify_token`), and `check_permissions`;
- `src/app/api/v1/endpoints/auth.py`: the `register`, `refresh_token` and
  `logout` endpoint handlers and the `get_current_user` dependency.

Time is modelled as natural-number seconds.  A JWT is modelled as its
decoded claim set together with the key it was signed with; the external
`jose` library's `decode` is modelled by `jwtDecode`, which checks the
signature key and then the `exp` claim (jose validates `exp` during
`decode`, raising `ExpiredSignatureError`, a subclass of `JWTError`).
The external user store and the bcrypt-backed passlib context are not
present under `src/`; they are modelled from the spec where noted.
-/

namespace RoleForge

/-- A claim dictionary as passed to the token-creation helpers: the call
sites in `auth.py` pass `sub`, `email` and optionally `role`. -/
structure Claims where
  sub : Option String
  email : Option String
  role : Option String
deriving Repr, DecidableEq

/-- The decoded payload of a JWT after `to_encode.update({"exp": ..., "type": ...})`:
the claims of the input dictionary plus the `exp` instant and the `type` tag. -/
structure TokenPayload where
  sub : Option String
  email : Option String
  role : Option String
  exp : Nat
  typ : String
deriving Repr, DecidableEq

/-- A serialized JWT, modelled as its payload plus the signing key
(`jwt.encode(to_encode, settings.SECRET_KEY, algorithm="HS256")`). -/
structure Jwt where
  payload : TokenPayload
  key : String
deriving Repr, DecidableEq

/-- The fields of `Settings` (in `src/app/core/config.py`) that the
authentication core reads. -/
structure Settings where
  SECRET_KEY : String
  ACCESS_TOKEN_EXPIRE_MINUTES : Nat
  REFRESH_TOKEN_EXPIRE_DAYS : Nat
deriving Repr, DecidableEq

/-- Errors raised by `jose.jwt.decode`: signature mismatch, or an `exp`
claim in the past (both are subclasses of `JWTError`). -/
inductive JWTError where
  | signatureMismatch
  | expiredSignature
deriving Repr, DecidableEq

/-- `jwt.encode(payload, key, algorithm="HS256")`. -/
def jwtEncode (payload : TokenPayload) (key : String) : Jwt :=
  ⟨payload, key⟩

/-- `jwt.decode(token, key, algorithms=["HS256"])`: verifies the signature,
then validates the `exp` claim against the current time (jose raises
`ExpiredSignatureError` when `exp < now`, with zero leeway). -/
def jwtDecode (token : Jwt) (key : String) (now : Nat) : Except JWTError TokenPayload :=
  if token.key ≠ key then .error .signatureMismatch
  else if token.payload.exp < now then .error .expiredSignature
  else .ok token.payload

/-- The local `expire` computed in `create_access_token` (security.py
lines 37-40).  `expires_delta` is an optional `timedelta`; Python's
`if expires_delta:` is falsy both for `None` and for a zero delta, in
which case the configured default `ACCESS_TOKEN_EXPIRE_MINUTES` applies. -/
def access_expire (s : Settings) (now : Nat) (expires_delta : Option Nat) : Nat :=
  match expires_delta with
  | some d => if d ≠ 0 then now + d else now + s.ACCESS_TOKEN_EXPIRE_MINUTES * 60
  | none => now + s.ACCESS_TOKEN_EXPIRE_MINUTES * 60

/-- `create_access_token` (security.py lines 33-44): the input claims plus
`exp` and the `"access"` type tag, signed with the configured secret. -/
def create_access_token (s : Settings) (data : Claims) (now : Nat)
    (expires_delta : Option Nat) : Jwt :=
  jwtEncode ⟨data.sub, data.email, data.role, access_expire s now expires_delta, "access"⟩
    s.SECRET_KEY

/-- The local `expire` computed in `create_refresh_token` (security.py
line 50): `REFRESH_TOKEN_EXPIRE_DAYS` days from now. -/
def refresh_expire (s : Settings) (now : Nat) : Nat :=
  now + s.REFRESH_TOKEN_EXPIRE_DAYS * 86400

/-- `create_refresh_token` (security.py lines 47-53): the input claims plus
`exp` and the `"refresh"` type tag, signed with the configured secret. -/
def create_refresh_token (s : Settings) (data : Claims) (now : Nat) : Jwt :=
  jwtEncode ⟨data.sub, data.email, data.role, refresh_expire s now, "refresh"⟩ s.SECRET_KEY

/-- The decoded, verified projection of a token (`TokenData` in
`app/schemas/auth.py`): user id, email, role. -/
structure TokenData where
  user_id : String
  email : Option String
  role : String
deriving Repr, DecidableEq

/-- The `AuthenticationException` raised by `verify_token`, distinguished
by the message string used in security.py. -/
inductive AuthError where
  | tokenValidationFailed (e : JWTError)
  | invalidTokenType
  | invalidTokenPayload
deriving Repr, DecidableEq

/-- `verify_token` (security.py lines 56-79): decode (signature and expiry
checked inside `jwt.decode`), then check the `type` claim, then require a
`sub` claim; on success build `TokenData` with the role claim defaulting
to `"user"`. -/
def verify_token (s : Settings) (token : Jwt) (token_type : String) (now : Nat) :
    Except AuthError TokenData :=
  match jwtDecode token s.SECRET_KEY now with
  | .error e => .error (.tokenValidationFailed e)
  | .ok payload =>
    if payload.typ ≠ token_type then .error .invalidTokenType
    else
      match payload.sub with
      | none => .error .invalidTokenPayload
      | some user_id => .ok ⟨user_id, payload.email, payload.role.getD "user"⟩

/-- The fixed `role_permissions` table inside `check_permissions`
(security.py lines 84-89); `.get(user_role, [])` yields `[]` for any
role outside the table. -/
def role_permissions (user_role : String) : List String :=
  if user_role = "admin" then ["read", "write", "delete", "admin"]
  else if user_role = "gm" then ["read", "write", "gm"]
  else if user_role = "user" then ["read", "write"]
  else if user_role = "guest" then ["read"]
  else []

/-- `check_permissions` (security.py lines 82-92): `all(permission in
user_permissions for permission in required_permissions)`. -/
def check_permissions (user_role : String) (required_permissions : List String) : Bool :=
  required_permissions.all (fun permission => (role_permissions user_role).contains permission)

/-- Modelled from the spec: the bcrypt compression at the heart of the
passlib `CryptContext` is an external collaborator not present under
`src/`; spec section 4.1 describes an adaptive, salted one-way hash whose
verification "recomputes using the salt embedded in the hash string".
It is modelled as an ideal collision-free salted digest. -/
def bcryptDigest (salt : Nat) (password : String) : String :=
  toString salt ++ "|" ++ password

/-- Modelled from the spec: a hash string produced by the hashing scheme
carries the per-call salt and the digest; any other input is a
`malformed` hash string (spec section 4.1: verification "never throws on
malformed hash input — returns false"). -/
inductive HashString where
  | bcrypt (salt : Nat) (checksum : String)
  | malformed (raw : String)
deriving Repr, DecidableEq

/-- `get_password_hash` (security.py lines 28-30), over the spec-modelled
hasher: a fresh random salt is drawn per call (passed explicitly here)
and the digest of the password under that salt is embedded in the hash
string. -/
def get_password_hash (salt : Nat) (password : String) : HashString :=
  .bcrypt salt (bcryptDigest salt password)

/-- `verify_password` (security.py lines 23-25), over the spec-modelled
hasher: recompute the digest using the salt embedded in the hash string
and compare; a malformed hash string verifies as false. -/
def verify_password (plain_password : String) (hashed_password : HashString) : Bool :=
  match hashed_password with
  | .bcrypt salt checksum => checksum == bcryptDigest salt plain_password
  | .malformed _ => false

/-- A user record as held by the external user store (spec section 3): id,
email, username, password hash, role. -/
structure User where
  id : String
  email : String
  username : String
  password_hash : HashString
  role : String
deriving Repr, DecidableEq

/-- Modelled from the spec: the external user store (spec section 6),
as the list of persisted users. -/
abbrev UserStore := List User

/-- Modelled from the spec: `find_by_email` of the user store collaborator
(`AuthService.get_user_by_email`; `app/services/auth_service.py` is not
under `src/`). -/
def get_user_by_email (store : UserStore) (email : String) : Option User :=
  store.find? (fun u => u.email == email)

/-- Modelled from the spec: `find_by_username` of the user store
collaborator (`AuthService.get_user_by_username`). -/
def get_user_by_username (store : UserStore) (username : String) : Option User :=
  store.find? (fun u => u.username == username)

/-- Modelled from the spec: `find_by_id` of the user store collaborator
(`AuthService.get_user_by_id` and `UserService.get_user_by_id`). -/
def get_user_by_id (store : UserStore) (id : String) : Option User :=
  store.find? (fun u => u.id == id)

/-- The registration request body (`UserCreate` in `app/schemas/auth.py`,
not under `src/`): email, username, password. -/
structure UserCreate where
  email : String
  username : String
  password : String
deriving Repr, DecidableEq

/-- Modelled from the spec: `AuthService.create_user` (spec section 4.4:
"hashes password via Credential Hasher, persists new User with default
role user, returns it").  The store-assigned id and the per-call salt are
passed explicitly. -/
def create_user (store : UserStore) (data : UserCreate) (newId : String) (salt : Nat) :
    User × UserStore :=
  let user : User := ⟨newId, data.email, data.username, get_password_hash salt data.password, "user"⟩
  (user, store ++ [user])

/-- An `HTTPException` as raised at the endpoint boundary: wire status code
and detail message. -/
structure HTTPError where
  status_code : Nat
  detail : String
deriving Repr, DecidableEq

/-- The `Token` response schema: access token, refresh token, and
`expires_in` seconds. -/
structure Token where
  access_token : Jwt
  refresh_token : Jwt
  expires_in : Nat
deriving Repr, DecidableEq

/-- The detail string carried by each `AuthenticationException` raised in
`verify_token` (the caught `JWTError` message is interpolated into the
first form). -/
def AuthError.detail : AuthError → String
  | .tokenValidationFailed _ => "Token validation failed"
  | .invalidTokenType => "Invalid token type"
  | .invalidTokenPayload => "Invalid token payload"

/-- `register` (auth.py lines 68-104): reject when the email is already
registered (`409`), then when the username is taken (`409`); otherwise
create the user and return a token pair.  Returns the response together
with the resulting user store. -/
def register (s : Settings) (store : UserStore) (user_data : UserCreate)
    (newId : String) (salt : Nat) (now : Nat) : Except HTTPError (Token × UserStore) :=
  match get_user_by_email store user_data.email with
  | some _ => .error ⟨409, "User with this email already exists"⟩
  | none =>
    match get_user_by_username store user_data.username with
    | some _ => .error ⟨409, "Username already taken"⟩
    | none =>
      let (user, store₂) := create_user store user_data newId salt
      let access := create_access_token s ⟨some user.id, some user.email, some user.role⟩ now none
      let refresh := create_refresh_token s ⟨some user.id, some user.email, none⟩ now
      .ok (⟨access, refresh, s.ACCESS_TOKEN_EXPIRE_MINUTES * 60⟩, store₂)

/-- `refresh_token` (auth.py lines 137-167): verify the presented token
with `token_type="refresh"`, re-fetch the user by the decoded id, and
issue a fresh pair carrying the user's current role; an
`AuthenticationException` (from verification or a missing user) is
caught and mapped to a `401`. -/
def refresh_token (s : Settings) (store : UserStore) (presented : Jwt) (now : Nat) :
    Except HTTPError (Token × UserStore) :=
  match verify_token s presented "refresh" now with
  | .error e => .error ⟨401, e.detail⟩
  | .ok token_payload =>
    match get_user_by_id store token_payload.user_id with
    | none => .error ⟨401, "User not found"⟩
    | some user =>
      let access := create_access_token s ⟨some user.id, some user.email, some user.role⟩ now none
      let refresh := create_refresh_token s ⟨some user.id, some user.email, none⟩ now
      .ok (⟨access, refresh, s.ACCESS_TOKEN_EXPIRE_MINUTES * 60⟩, store)

/-- `get_current_user` (auth.py lines 49-65): verify the bearer token as
an access token, look the user up by id; any `AuthenticationException`
becomes a `401` with detail "Could not validate credentials". -/
def get_current_user (s : Settings) (store : UserStore) (tok : Jwt) (now : Nat) :
    Except HTTPError User :=
  match verify_token s tok "access" now with
  | .error _ => .error ⟨401, "Could not validate credentials"⟩
  | .ok token_data =>
    match get_user_by_id store token_data.user_id with
    | none => .error ⟨401, "Could not validate credentials"⟩
    | some user => .ok user

/-- `logout` (auth.py lines 223-229): once `get_current_user` succeeds,
return only a message; no stored data is touched.  The resulting store is
returned to make the frame condition statable. -/
def logout (s : Settings) (store : UserStore) (tok : Jwt) (now : Nat) :
    Except HTTPError (String × UserStore) :=
  match get_current_user s store tok now with
  | .error e => .error e
  | .ok _ => .ok ("Logged out successfully", store)

/-! ## Helper lemmas -/

theorem str_append_left_cancel (s t u : String) (h : s ++ t = s ++ u) : t = u := by
  have hd : (s ++ t).data = (s ++ u).data := congrArg String.data h
  simp only [String.data_append] at hd
  exact String.ext (List.append_cancel_left hd)

theorem find?_append_of_none {α : Type} (l₁ l₂ : List α) (p : α → Bool)
    (h : l₁.find? p = none) : (l₁ ++ l₂).find? p = l₂.find? p := by
  rw [List.find?_eq_none] at h
  induction l₁ with
  | nil => rfl
  | cons a t ih =>
    have ha : p a = false := Bool.eq_false_iff.mpr (h a (by simp))
    simp only [List.cons_append, List.find?_cons, ha]
    exact ih fun x hx => h x (by simp [hx])

theorem verify_token_encode (s : Settings) (p : TokenPayload) (ty : String) (t : Nat)
    (h : ¬ p.exp < t) :
    verify_token s (jwtEncode p s.SECRET_KEY) ty t =
      if p.typ ≠ ty then .error .invalidTokenType
      else match p.sub with
        | none => .error .invalidTokenPayload
        | some uid => .ok ⟨uid, p.email, p.role.getD "user"⟩ := by
  simp [verify_token, jwtDecode, jwtEncode, h]

/-! ## Claim theorems -/

/-- Claim C1: for every claim set with subject id, email and role,
verifying the token produced by `create_access_token` with expected type
`"access"` (before its expiry) succeeds and returns a `TokenData` whose
`user_id`, `email` and `role` equal the input claims; verifying that same
token with expected type `"refresh"` fails with the type-mismatch
authentication error. -/
theorem access_token_roundtrip (s : Settings) (sub email role : String)
    (now t : Nat) (d : Option Nat)
    (h : ¬ (create_access_token s ⟨some sub, some email, some role⟩ now d).payload.exp < t) :
    verify_token s (create_access_token s ⟨some sub, some email, some role⟩ now d) "access" t
      = .ok ⟨sub, some email, role⟩
    ∧ verify_token s (create_access_token s ⟨some sub, some email, some role⟩ now d) "refresh" t
      = .error .invalidTokenType := by
  simp only [create_access_token, jwtEncode] at h ⊢
  rw [show (⟨⟨some sub, some email, some role, access_expire s now d, "access"⟩,
        s.SECRET_KEY⟩ : Jwt)
      = jwtEncode ⟨some sub, some email, some role, access_expire s now d, "access"⟩
        s.SECRET_KEY from rfl]
  rw [verify_token_encode s _ "access" t h, verify_token_encode s _ "refresh" t h]
  simp

/-- Witness for C1 at a concrete claim set and time. -/
theorem access_token_roundtrip_witness :
    verify_token ⟨"k", 30, 7⟩
        (create_access_token ⟨"k", 30, 7⟩ ⟨some "42", some "a@b.c", some "admin"⟩ 0 none)
        "access" 0
      = .ok ⟨"42", some "a@b.c", "admin"⟩
    ∧ verify_token ⟨"k", 30, 7⟩
        (create_access_token ⟨"k", 30, 7⟩ ⟨some "42", some "a@b.c", some "admin"⟩ 0 none)
        "refresh" 0
      = .error .invalidTokenType :=
  access_token_roundtrip ⟨"k", 30, 7⟩ "42" "a@b.c" "admin" 0 0 none (by decide)

/-- Claim C2: a token whose `exp` claim lies in the past at verification
time fails with an authentication error even when its signature was
produced with the correct secret key, for every expected type (the
universally quantified `token_type` covers both `"access"` and
`"refresh"`). -/
theorem expired_token_rejected (s : Settings) (tok : Jwt) (token_type : String) (now : Nat)
    (hkey : tok.key = s.SECRET_KEY) (hexp : tok.payload.exp < now) :
    verify_token s tok token_type now
      = .error (.tokenValidationFailed .expiredSignature) := by
  simp [verify_token, jwtDecode, hkey, hexp]

/-- Witness for C2 at a concrete expired token. -/
theorem expired_token_rejected_witness :
    verify_token ⟨"k", 30, 7⟩ ⟨⟨some "42", some "a@b.c", none, 5, "access"⟩, "k"⟩ "access" 10
      = .error (.tokenValidationFailed .expiredSignature) :=
  expired_token_rejected ⟨"k", 30, 7⟩ ⟨⟨some "42", some "a@b.c", none, 5, "access"⟩, "k"⟩
    "access" 10 rfl (by decide)

/-- Claim C6: for a token that decodes with a valid signature, is not
expired, and has a matching type claim, `verify_token` fails with the
malformed-payload authentication error when the `sub` claim is absent;
when `sub` is present it succeeds and returns `TokenData` with `user_id`
equal to `sub`, the decoded email, and role equal to the decoded role
claim or the default `"user"` when no role claim is present. -/
theorem verify_token_sub_and_role_default (s : Settings) (tok : Jwt) (ty : String) (now : Nat)
    (hkey : tok.key = s.SECRET_KEY) (hexp : ¬ tok.payload.exp < now)
    (hty : tok.payload.typ = ty) :
    (tok.payload.sub = none → verify_token s tok ty now = .error .invalidTokenPayload)
    ∧ ∀ uid, tok.payload.sub = some uid →
        verify_token s tok ty now
          = .ok ⟨uid, tok.payload.email, tok.payload.role.getD "user"⟩ := by
  obtain ⟨p, k⟩ := tok
  simp only at hkey hexp hty
  subst hkey hty
  rw [show (⟨p, s.SECRET_KEY⟩ : Jwt) = jwtEncode p s.SECRET_KEY from rfl]
  rw [verify_token_encode s p p.typ now hexp]
  constructor
  · intro hsub
    simp only [jwtEncode] at hsub
    simp [hsub]
  · intro uid hsub
    simp only [jwtEncode] at hsub
    simp [jwtEncode, hsub]

/-- Witness for C6: a token without `sub` is rejected; one with `sub` and
no role claim verifies with the default role. -/
theorem verify_token_sub_and_role_default_witness :
    verify_token ⟨"k", 30, 7⟩ ⟨⟨none, some "a@b.c", none, 99, "access"⟩, "k"⟩ "access" 0
      = .error .invalidTokenPayload :=
  (verify_token_sub_and_role_default ⟨"k", 30, 7⟩
    ⟨⟨none, some "a@b.c", none, 99, "access"⟩, "k"⟩ "access" 0 rfl (by decide) rfl).1 rfl

/-- Claim C10: verifying a token produced by `create_refresh_token` from
the claim set passed at every call site (`sub` and `email` only, no role
claim) with expected type `"refresh"` returns a `TokenData` whose role is
always the literal default `"user"`, regardless of the subject's actual
role, because verification substitutes the default for the absent role
claim. -/
theorem refresh_token_role_is_default (s : Settings) (sub email : String) (now t : Nat)
    (h : ¬ (create_refresh_token s ⟨some sub, some email, none⟩ now).payload.exp < t) :
    verify_token s (create_refresh_token s ⟨some sub, some email, none⟩ now) "refresh" t
      = .ok ⟨sub, some email, "user"⟩ := by
  simp only [create_refresh_token, jwtEncode] at h ⊢
  rw [show (⟨⟨some sub, some email, none, refresh_expire s now, "refresh"⟩,
        s.SECRET_KEY⟩ : Jwt)
      = jwtEncode ⟨some sub, some email, none, refresh_expire s now, "refresh"⟩
        s.SECRET_KEY from rfl]
  rw [verify_token_encode s _ "refresh" t h]
  simp

/-- Witness for C10 at a concrete admin subject: the refreshed role is
still `"user"`. -/
theorem refresh_token_role_is_default_witness :
    verify_token ⟨"k", 30, 7⟩
        (create_refresh_token ⟨"k", 30, 7⟩ ⟨some "root-admin", some "a@b.c", none⟩ 0) "refresh" 0
      = .ok ⟨"root-admin", some "a@b.c", "user"⟩ :=
  refresh_token_role_is_default ⟨"k", 30, 7⟩ "root-admin" "a@b.c" 0 0 (by decide)

/-- Claim C5: `check_permissions role required` is true iff every required
permission is a member of the fixed permission set of that role, whose
table is admin: read, write, delete, admin; gm: read, write, gm; user:
read, write; guest: read; a role outside this closed set maps to the
empty permission set, and an empty required list succeeds for every role
including unknown ones. -/
theorem check_permissions_spec :
    (∀ role required, check_permissions role required = true
        ↔ ∀ p ∈ required, p ∈ role_permissions role)
    ∧ role_permissions "admin" = ["read", "write", "delete", "admin"]
    ∧ role_permissions "gm" = ["read", "write", "gm"]
    ∧ role_permissions "user" = ["read", "write"]
    ∧ role_permissions "guest" = ["read"]
    ∧ (∀ role, role ≠ "admin" → role ≠ "gm" → role ≠ "user" → role ≠ "guest" →
        role_permissions role = [])
    ∧ (∀ role, check_permissions role [] = true) := by
  refine ⟨fun role required => ?_, by decide, by decide, by decide, by decide,
    fun role h₁ h₂ h₃ h₄ => ?_, fun role => rfl⟩
  · simp [check_permissions, List.all_eq_true, List.elem_iff]
  · simp [role_permissions, h₁, h₂, h₃, h₄]

/-- Witness for C5 at concrete roles and permission lists. -/
theorem check_permissions_spec_witness :
    role_permissions "unknown_role" = []
    ∧ check_permissions "unknown_role" [] = true
    ∧ check_permissions "guest" ["write"] = false :=
  ⟨check_permissions_spec.2.2.2.2.2.1 "unknown_role"
      (by decide) (by decide) (by decide) (by decide),
   check_permissions_spec.2.2.2.2.2.2 "unknown_role",
   by
    have h : ¬ check_permissions "guest" ["write"] = true := by
      rw [check_permissions_spec.1 "guest" ["write"]]
      decide
    exact Bool.eq_false_iff.mpr h⟩

/-- Claim C3: for every password `p`, `verify_password p (get_password_hash p)`
returns true; and for distinct passwords `p₁ ≠ p₂`,
`verify_password p₁ (get_password_hash p₂)` returns false (over the
spec-modelled ideal collision-free salted digest; the salt drawn for the
hashing call is explicit). -/
theorem password_hash_roundtrip (salt : Nat) :
    (∀ p, verify_password p (get_password_hash salt p) = true)
    ∧ ∀ p₁ p₂, p₁ ≠ p₂ → verify_password p₁ (get_password_hash salt p₂) = false := by
  constructor
  · intro p
    simp [verify_password, get_password_hash]
  · intro p₁ p₂ hne
    simp only [verify_password, get_password_hash, bcryptDigest]
    rw [beq_eq_false_iff_ne]
    intro h
    exact hne (str_append_left_cancel _ _ _ h).symm

/-- Witness for C3 at concrete passwords. -/
theorem password_hash_roundtrip_witness :
    verify_password "hunter2" (get_password_hash 0 "hunter2") = true
    ∧ verify_password "hunter2" (get_password_hash 0 "hunter3") = false :=
  ⟨(password_hash_roundtrip 0).1 "hunter2",
   (password_hash_roundtrip 0).2 "hunter2" "hunter3" (by decide)⟩

/-- Claim C4: `verify_password` always returns a boolean (it is a total
function of its inputs — the embedding has no exception path), and on a
malformed hash string it returns false. -/
theorem verify_password_total (p : String) (hs : HashString) :
    (verify_password p hs = true ∨ verify_password p hs = false)
    ∧ ∀ raw, hs = .malformed raw → verify_password p hs = false := by
  constructor
  · cases hb : verify_password p hs
    · exact Or.inr rfl
    · exact Or.inl rfl
  · rintro raw rfl
    rfl

/-- Witness for C4 at a concrete malformed hash string. -/
theorem verify_password_total_witness :
    verify_password "hunter2" (.malformed "not-a-bcrypt-hash") = false :=
  (verify_password_total "hunter2" (.malformed "not-a-bcrypt-hash")).2
    "not-a-bcrypt-hash" rfl

/-- Claim C7: `register` fails with a `409` conflict when a user with the
requested email already exists, fails with a `409` conflict when the
requested username already exists, and otherwise creates the user and
returns a token pair; and of two sequential registrations with the same
email, the first succeeding implies the second fails with the email
conflict. -/
theorem register_spec (s : Settings) (store : UserStore) (ud : UserCreate)
    (newId : String) (salt : Nat) (now : Nat) :
    (∀ u, get_user_by_email store ud.email = some u →
        register s store ud newId salt now
          = .error ⟨409, "User with this email already exists"⟩)
    ∧ (get_user_by_email store ud.email = none →
       ∀ u, get_user_by_username store ud.username = some u →
        register s store ud newId salt now = .error ⟨409, "Username already taken"⟩)
    ∧ (get_user_by_email store ud.email = none →
       get_user_by_username store ud.username = none →
        register s store ud newId salt now
          = .ok (⟨create_access_token s ⟨some newId, some ud.email, some "user"⟩ now none,
                  create_refresh_token s ⟨some newId, some ud.email, none⟩ now,
                  s.ACCESS_TOKEN_EXPIRE_MINUTES * 60⟩,
                 store ++ [⟨newId, ud.email, ud.username,
                            get_password_hash salt ud.password, "user"⟩]))
    ∧ ∀ tok store₂ ud₂ newId₂ salt₂ now₂, ud₂.email = ud.email →
        register s store ud newId salt now = .ok (tok, store₂) →
        register s store₂ ud₂ newId₂ salt₂ now₂
          = .error ⟨409, "User with this email already exists"⟩ := by
  refine ⟨?_, ?_, ?_, ?_⟩
  · intro u hu
    simp [register, hu]
  · intro he u hu
    simp [register, he, hu]
  · intro he hu
    simp [register, he, hu, create_user]
  · intro tok store₂ ud₂ newId₂ salt₂ now₂ hemail hok
    cases hE : get_user_by_email store ud.email with
    | some u => simp [register, hE] at hok
    | none =>
      cases hU : get_user_by_username store ud.username with
      | some u => simp [register, hE, hU] at hok
      | none =>
        simp only [register, hE, hU, create_user, Except.ok.injEq, Prod.mk.injEq] at hok
        obtain ⟨-, hstore⟩ := hok
        subst hstore
        have hfound : get_user_by_email
            (store ++ [⟨newId, ud.email, ud.username,
              get_password_hash salt ud.password, "user"⟩]) ud₂.email
            = some ⟨newId, ud.email, ud.username,
                get_password_hash salt ud.password, "user"⟩ := by
          rw [hemail]
          simp only [get_user_by_email] at hE ⊢
          rw [find?_append_of_none _ _ _ hE]
          simp [List.find?]
        simp [register, hfound]

/-- Witness for C7: a fresh registration succeeds and a second registration
with the same email on the resulting store fails with the email conflict. -/
theorem register_spec_witness :
    register ⟨"k", 30, 7⟩
        ([] ++ [⟨"1", "a@b.c", "alice", get_password_hash 0 "pw", "user"⟩])
        ⟨"a@b.c", "alice2", "pw2"⟩ "2" 1 5
      = .error ⟨409, "User with this email already exists"⟩ :=
  (register_spec ⟨"k", 30, 7⟩ [] ⟨"a@b.c", "alice", "pw"⟩ "1" 0 0).2.2.2
    _ _ ⟨"a@b.c", "alice2", "pw2"⟩ "2" 1 5 rfl
    ((register_spec ⟨"k", 30, 7⟩ [] ⟨"a@b.c", "alice", "pw"⟩ "1" 0 0).2.2.1 rfl rfl)

/-- Claim C8: `refresh_token` verifies the presented token with expected
type `"refresh"` and re-fetches the subject user by id, so the newly
issued access token carries the user's current role from the store; if
the subject user no longer exists it fails with a `401` authentication
error; any verification failure is likewise mapped to a `401`. -/
theorem refresh_token_spec (s : Settings) (store : UserStore) (presented : Jwt) (now : Nat) :
    (∀ td user, verify_token s presented "refresh" now = .ok td →
        get_user_by_id store td.user_id = some user →
        refresh_token s store presented now
          = .ok (⟨create_access_token s ⟨some user.id, some user.email, some user.role⟩ now none,
                  create_refresh_token s ⟨some user.id, some user.email, none⟩ now,
                  s.ACCESS_TOKEN_EXPIRE_MINUTES * 60⟩, store))
    ∧ (∀ td, verify_token s presented "refresh" now = .ok td →
        get_user_by_id store td.user_id = none →
        refresh_token s store presented now = .error ⟨401, "User not found"⟩)
    ∧ ∀ e, verify_token s presented "refresh" now = .error e →
        refresh_token s store presented now = .error ⟨401, e.detail⟩ := by
  refine ⟨?_, ?_, ?_⟩
  · intro td user hv hu
    simp [refresh_token, hv, hu]
  · intro td hv hu
    simp [refresh_token, hv, hu]
  · intro e hv
    simp [refresh_token, hv]

/-- Witness for C8: a refresh for an admin user issues an access token
carrying the store's current role `"admin"` even though the refresh
token's decoded role was the default `"user"`; and a refresh whose
subject has been deleted from the store fails with a `401`. -/
theorem refresh_token_spec_witness :
    refresh_token ⟨"k", 30, 7⟩ [⟨"42", "a@b.c", "root", get_password_hash 0 "pw", "admin"⟩]
        ⟨⟨some "42", some "a@b.c", none, 100, "refresh"⟩, "k"⟩ 0
      = .ok (⟨create_access_token ⟨"k", 30, 7⟩ ⟨some "42", some "a@b.c", some "admin"⟩ 0 none,
              create_refresh_token ⟨"k", 30, 7⟩ ⟨some "42", some "a@b.c", none⟩ 0,
              1800⟩, [⟨"42", "a@b.c", "root", get_password_hash 0 "pw", "admin"⟩])
    ∧ refresh_token ⟨"k", 30, 7⟩ []
        ⟨⟨some "42", some "a@b.c", none, 100, "refresh"⟩, "k"⟩ 0
      = .error ⟨401, "User not found"⟩ :=
  ⟨(refresh_token_spec ⟨"k", 30, 7⟩ [⟨"42", "a@b.c", "root", get_password_hash 0 "pw", "admin"⟩]
      ⟨⟨some "42", some "a@b.c", none, 100, "refresh"⟩, "k"⟩ 0).1
      ⟨"42", some "a@b.c", "user"⟩ ⟨"42", "a@b.c", "root", get_password_hash 0 "pw", "admin"⟩
      rfl rfl,
   (refresh_token_spec ⟨"k", 30, 7⟩ []
      ⟨⟨some "42", some "a@b.c", none, 100, "refresh"⟩, "k"⟩ 0).2.1
      ⟨"42", some "a@b.c", "user"⟩ rfl rfl⟩

/-- Claim C9: a successful `logout` changes no server-side state: it
returns only the message, the user store is unchanged, and the behavior
of `get_current_user` — hence which bearer tokens verify successfully —
is identical before and after the call (token verification itself reads
no store at all). -/
theorem logout_spec (s : Settings) (store : UserStore) (tok : Jwt) (now : Nat) :
    (∀ msg store₂, logout s store tok now = .ok (msg, store₂) →
        msg = "Logged out successfully" ∧ store₂ = store)
    ∧ ∀ msg store₂, logout s store tok now = .ok (msg, store₂) →
        ∀ tok₂ now₂, get_current_user s store₂ tok₂ now₂
          = get_current_user s store tok₂ now₂ := by
  have hmain : ∀ msg store₂, logout s store tok now = .ok (msg, store₂) →
      msg = "Logged out successfully" ∧ store₂ = store := by
    intro msg store₂ hok
    simp only [logout] at hok
    split at hok
    · exact absurd hok (by simp)
    · simp only [Except.ok.injEq, Prod.mk.injEq] at hok
      exact ⟨hok.1.symm, hok.2.symm⟩
  refine ⟨hmain, ?_⟩
  intro msg store₂ hok tok₂ now₂
  rw [(hmain msg store₂ hok).2]

/-- Witness for C9: a concrete successful logout leaves the one-user store
exactly as it was. -/
theorem logout_spec_witness :
    "Logged out successfully" = "Logged out successfully"
    ∧ [(⟨"42", "a@b.c", "root", get_password_hash 0 "pw", "admin"⟩ : User)]
      = [⟨"42", "a@b.c", "root", get_password_hash 0 "pw", "admin"⟩] :=
  (logout_spec ⟨"k", 30, 7⟩ [⟨"42", "a@b.c", "root", get_password_hash 0 "pw", "admin"⟩]
      ⟨⟨some "42", some "a@b.c", some "admin", 100, "access"⟩, "k"⟩ 0).1
    "Logged out successfully"
    [⟨"42", "a@b.c", "root", get_password_hash 0 "pw", "admin"⟩] rfl

end RoleForge
